import Mathlib

/-!
# GovChain indexer: embedding of `indexer/main.go`

A shallow embedding of the indexer's synchronisation and retrieval code
(`generatePseudoEmbedding`, `indexDataset`, `fetchAndIndexAll`,
`searchDatasets` and the payload helpers), followed by theorems about it.

Conventions.
* Go `string` values are modelled by Lean `String`: the sequence of runes that
  a Go `range` loop yields.  Every string the indexer handles comes out of the
  JSON decoder or the query binder, so it is valid UTF-8.
* `uint64` is a `Nat` below `2^64`, `int64` an `Int` in `[-2^63, 2^63)`;
  conversions reduce modulo `2^64` explicitly.
* Calls that leave the process (vector store, embedding API, ledger HTTP API)
  go through a `Backend` record acting on an abstract world state; every call
  the program issues is also appended to a trace of `Event`s.
* Library code outside the repository whose results are never inspected
  (`float32` arithmetic, `math/rand`, `unicode.ToLower`, the JSON decoder) is
  taken as a parameter in a `GoRuntime` record; `strconv.ParseUint` and the
  store client's `NewValue` conversions are written out.
-/

namespace GovChain

/-! ## Machine integers -/

/-- Conversion of a Go integer to `uint64`: reduction modulo `2^64`. -/
def toUint64 (i : Int) : Nat := (i % 2 ^ 64).toNat

/-- Conversion of a Go integer to `int64`: two's complement reduction. -/
def toInt64 (i : Int) : Int := Int.bmod i (2 ^ 64)

/-! ## Data model (main.go 23-60) -/

/-- Dataset represents a government dataset from the blockchain. -/
structure Dataset where
  ID : String
  Title : String
  Description : String
  IpfsCid : String
  FileSize : Nat
  ChecksumSha256 : String
  Agency : String
  Category : String
  Submitter : String
  Timestamp : Int
  PinCount : Nat
deriving DecidableEq

/-- The numeric fields of a Go `Dataset` value fit their machine types
(`uint64`, `int64`, `uint64`). -/
def Dataset.InRange (d : Dataset) : Prop :=
  d.FileSize < 2 ^ 64 ∧ d.PinCount < 2 ^ 64 ∧
    -(2 ^ 63) ≤ d.Timestamp ∧ d.Timestamp < 2 ^ 63

instance (d : Dataset) : Decidable d.InRange := by
  unfold Dataset.InRange; infer_instance

/-- The `pagination` member of the ledger response. -/
structure Pagination where
  NextKey : String
  Total : String
deriving DecidableEq

/-- BlockchainResponse represents the response from blockchain API. -/
structure BlockchainResponse where
  Datasets : List Dataset
  Pagination : Pagination
deriving DecidableEq

/-- SearchRequest represents a search query.  `Limit` is a Go `int`. -/
structure SearchRequest where
  Query : String
  Limit : Int
  Agency : String
  Category : String
deriving DecidableEq

/-- SearchResponse represents search results.  `Count` is a Go `int`. -/
structure SearchResponse where
  Query : String
  Count : Int
  Results : List Dataset
deriving DecidableEq

/-- Indexer manages the vector search indexing (the two client handles live in
the `Backend`). -/
structure Indexer where
  blockchainAPI : String
  collectionName : String
  useOpenAI : Bool
deriving DecidableEq

/-! ## Errors -/

/-- The two failure kinds of `strconv` (`ErrSyntax`, `ErrRange`). -/
inductive NumErrKind where
  | malformed
  | outOfRange
deriving DecidableEq

/-- Go `error` values: a plain message, a `*strconv.NumError`, or an error
wrapped by `fmt.Errorf("<ctx>: %w", err)`. -/
inductive Err where
  | msg (text : String)
  | num (func : String) (input : String) (kind : NumErrKind)
  | wrap (ctx : String) (inner : Err)
deriving DecidableEq

/-! ## Vector-store values (qdrant client types used by the indexer) -/

/-- A payload value: the `Kind` alternatives of `qdrant.Value`.  The contents of
struct and list values are not inspected by the indexer and are elided. -/
inductive Value where
  | nullValue
  | doubleValue (bits : Nat)
  | integerValue (v : Int)
  | stringValue (s : String)
  | boolValue (b : Bool)
  | structValue
  | listValue
deriving DecidableEq

/-- Getter `GetStringValue`: the string of a string value, `""` otherwise. -/
def Value.GetStringValue : Value → String
  | .stringValue s => s
  | _ => ""

/-- Getter `GetIntegerValue`: the integer of an integer value, `0` otherwise. -/
def Value.GetIntegerValue : Value → Int
  | .integerValue v => v
  | _ => 0

/-- A Go `map[string]*qdrant.Value`, as an association list read with
`List.lookup`. -/
abbrev Payload := List (String × Value)

/-- The dynamically typed values that `indexDataset` puts in its
`map[string]any`. -/
inductive GoAny where
  | str (s : String)
  | int64 (v : Int)
  | uint64 (v : Nat)
deriving DecidableEq

/-- The client's `NewValue` on the three types used here: a string becomes a
string value, an `int64` an integer value, and a `uint64` is converted with
`int64(v)` into an integer value. -/
def NewValue : GoAny → Value
  | .str s => .stringValue s
  | .int64 v => .integerValue v
  | .uint64 v => .integerValue (toInt64 v)

/-- The client's `NewValueMap`: `NewValue` on every entry. -/
def NewValueMap (m : List (String × GoAny)) : Payload :=
  m.map fun kv => (kv.1, NewValue kv.2)

/-- A point id (`qdrant.NewIDNum`). -/
structure PointId where
  Num : Nat
deriving DecidableEq

/-- A point to write: `qdrant.PointStruct`. -/
structure PointStruct (F : Type) where
  Id : PointId
  Vectors : List F
  Payload : Payload

/-- A write request: `qdrant.UpsertPoints`. -/
structure UpsertPoints (F : Type) where
  CollectionName : String
  Points : List (PointStruct F)

/-- The match alternatives of `qdrant.Match` that carry scalar values. -/
inductive Match where
  | keyword (s : String)
  | integer (i : Int)
  | boolean (b : Bool)
  | text (s : String)
deriving DecidableEq

/-- A `qdrant.FieldCondition` with its `Key` and `Match`. -/
structure FieldCondition where
  Key : String
  Match : Match
deriving DecidableEq

/-- A `qdrant.Condition`: a field condition, or one of the key-only
alternatives. -/
inductive Condition where
  | field (f : FieldCondition)
  | isEmpty (key : String)
  | isNull (key : String)
deriving DecidableEq

/-- A `qdrant.Filter`; absent lists are empty. -/
structure Filter where
  Should : List Condition := []
  Must : List Condition := []
  MustNot : List Condition := []
deriving DecidableEq

/-- A read request: `qdrant.QueryPoints`. -/
structure QueryPoints (F : Type) where
  CollectionName : String
  Query : List F
  Limit : Nat
  Filter : Option Filter
  WithPayload : Bool

/-- A returned point: `qdrant.ScoredPoint` (the score is not read). -/
structure ScoredPoint where
  Id : PointId
  Payload : Payload
deriving DecidableEq

/-- The distance functions of the store. -/
inductive Distance where
  | Cosine
  | Euclid
  | Dot
  | Manhattan
deriving DecidableEq

/-- Vector parameters of a collection: `qdrant.VectorParams`. -/
structure VectorParams where
  Size : Nat
  Distance : Distance
deriving DecidableEq

/-- A collection creation request: `qdrant.CreateCollection`. -/
structure CreateCollection where
  CollectionName : String
  VectorsConfig : VectorParams
deriving DecidableEq

/-! ## Payload helpers (main.go 419-443) -/

/-- Helper to extract a string from a Qdrant payload. -/
def getStringFromPayload (payload : Payload) (key : String) : String :=
  match payload.lookup key with
  | some val => if val.GetStringValue ≠ "" then val.GetStringValue else ""
  | none => ""

/-- Helper to extract a `uint64` from a Qdrant payload. -/
def getUint64FromPayload (payload : Payload) (key : String) : Nat :=
  match payload.lookup key with
  | some val => if val.GetIntegerValue ≠ 0 then toUint64 val.GetIntegerValue else 0
  | none => 0

/-- Helper to extract an `int64` from a Qdrant payload. -/
def getInt64FromPayload (payload : Payload) (key : String) : Int :=
  match payload.lookup key with
  | some val => val.GetIntegerValue
  | none => 0

/-- The payload map literal of `indexDataset` (main.go 242-254). -/
def datasetPayload (dataset : Dataset) : Payload :=
  NewValueMap [
    ("id", .str dataset.ID),
    ("title", .str dataset.Title),
    ("description", .str dataset.Description),
    ("ipfsCid", .str dataset.IpfsCid),
    ("fileSize", .uint64 dataset.FileSize),
    ("checksumSha256", .str dataset.ChecksumSha256),
    ("agency", .str dataset.Agency),
    ("category", .str dataset.Category),
    ("submitter", .str dataset.Submitter),
    ("timestamp", .int64 dataset.Timestamp),
    ("pinCount", .uint64 dataset.PinCount)]

/-- The `Dataset` literal of the result loop of `searchDatasets`
(main.go 396-408). -/
def payloadToDataset (payload : Payload) : Dataset :=
  { ID := getStringFromPayload payload "id"
    Title := getStringFromPayload payload "title"
    Description := getStringFromPayload payload "description"
    IpfsCid := getStringFromPayload payload "ipfsCid"
    FileSize := getUint64FromPayload payload "fileSize"
    ChecksumSha256 := getStringFromPayload payload "checksumSha256"
    Agency := getStringFromPayload payload "agency"
    Category := getStringFromPayload payload "category"
    Submitter := getStringFromPayload payload "submitter"
    Timestamp := getInt64FromPayload payload "timestamp"
    PinCount := getUint64FromPayload payload "pinCount" }

/-! ## Platform and library parameters -/

/-- The width of the Go `int` type, fixed by the compilation target. -/
inductive Arch where
  | bits32
  | bits64
deriving DecidableEq

/-- Number of bits of `int` on a target. -/
def Arch.intBits : Arch → Nat
  | .bits32 => 32
  | .bits64 => 64

/-- Library code the indexer calls and whose results the theorems below never
inspect: `unicode.ToLower`, the `math/rand` generator (`NewSource` gives the
generator state for a seed, `Float32` draws one value), `float32` arithmetic
(`recipEps x` is `float32(1.0 / (float64(x) + 0.0001))`) and the JSON decoder of
the ledger response. -/
structure GoRuntime (F R : Type) where
  arch : Arch
  unicodeToLower : Char → Char
  NewSource : Int → R
  Float32 : R → F × R
  zero : F
  one : F
  two : F
  add : F → F → F
  sub : F → F → F
  mul : F → F → F
  recipEps : F → F
  jsonDecode : String → Except Err BlockchainResponse

/-- An HTTP response: status code and body. -/
structure HttpResponse where
  StatusCode : Int
  Body : String
deriving DecidableEq

/-- An embedding request of the OpenAI client. -/
structure EmbeddingRequest where
  Input : List String
  Model : String
deriving DecidableEq

/-- An entry of the collection listing. -/
structure CollectionDescription where
  Name : String
deriving DecidableEq

/-- The services outside the process.  Each call takes the current world state
and returns its answer with the next world state. -/
structure Backend (σ F : Type) where
  httpGet : String → σ → Except Err HttpResponse × σ
  CreateEmbeddings : EmbeddingRequest → σ → Except Err (List (List F)) × σ
  ListCollections : σ → Except Err (List CollectionDescription) × σ
  CreateCollection : CreateCollection → σ → Except Err Unit × σ
  Upsert : UpsertPoints F → σ → Except Err Unit × σ
  Query : QueryPoints F → σ → Except Err (List ScoredPoint) × σ

/-- An argument of a `log.Printf` call. -/
inductive LogArg where
  | str (s : String)
  | int (n : Int)
  | err (e : Err)
deriving DecidableEq

/-- What the program does that is visible outside it: log lines (format string
and arguments as written in the source) and calls to the services. -/
inductive Event (F : Type) where
  | logf (format : String) (args : List LogArg)
  | httpGet (url : String)
  | createEmbeddings (req : EmbeddingRequest)
  | listCollections
  | createCollection (req : CreateCollection)
  | upsert (req : UpsertPoints F)
  | query (req : QueryPoints F)

/-- The outcome of running a procedure: its result, the world it leaves and the
events it produced, oldest first. -/
structure Run (σ F α : Type) where
  result : Except Err α
  world : σ
  trace : List (Event F)

variable {σ F R : Type}

/-! ## Embedding provider (main.go 157-212) -/

/-- The model constant `openai.AdaEmbeddingV2`. -/
def AdaEmbeddingV2 : String := "text-embedding-ada-002"

/-- Vector size of the collection and of the pseudo-embedding (the literal
`1536` of main.go 142 and 187). -/
def embeddingSize : Nat := 1536

/-- Function `strings.ToLower`: `unicode.ToLower` on every rune. -/
def ToLower (rt : GoRuntime F R) (s : String) : String :=
  ⟨s.data.map rt.unicodeToLower⟩

/-- One iteration of the hash loop: `hash = hash*31 + int(c)` in the Go `int`
type of the target, whose overflow wraps. -/
def hashStep (bits : Nat) (hash : Int) (c : Char) : Int :=
  Int.bmod (hash * 31 + (c.toNat : Int)) (2 ^ bits)

/-- The hash loop of `generatePseudoEmbedding` (main.go 191-194) over the
already lower-cased text. -/
def textHash (bits : Nat) (text : String) : Int :=
  text.data.foldl (hashStep bits) 0

/-- The seed handed to `rand.NewSource`: `int64(hash)` of the lower-cased
text (main.go 188-196). -/
def pseudoSeed (rt : GoRuntime F R) (text : String) : Int :=
  toInt64 (textHash rt.arch.intBits (ToLower rt text))

/-- Loop `for i := range embedding { embedding[i] = rng.Float32()*2 - 1 }`. -/
def fillRandom (rt : GoRuntime F R) (embedding : List F) (rng : R) : List F × R :=
  (List.range embedding.length).foldl
    (fun st i =>
      let draw := rt.Float32 st.2
      (st.1.set i (rt.sub (rt.mul draw.1 rt.two) rt.one), draw.2))
    (embedding, rng)

/-- Loop `for _, v := range embedding { sum += v * v }`. -/
def sumSquares (rt : GoRuntime F R) (embedding : List F) : F :=
  embedding.foldl (fun sum v => rt.add sum (rt.mul v v)) rt.zero

/-- Loop `for i := range embedding { embedding[i] *= norm }`. -/
def scaleAll (rt : GoRuntime F R) (embedding : List F) (norm : F) : List F :=
  (List.range embedding.length).foldl
    (fun emb i =>
      match emb.get? i with
      | some v => emb.set i (rt.mul v norm)
      | none => emb)
    embedding

/-- generatePseudoEmbedding creates a simple hash-based embedding (fallback). -/
def generatePseudoEmbedding (rt : GoRuntime F R) (text : String) : List F :=
  let embedding := List.replicate embeddingSize rt.zero
  let text := ToLower rt text
  let hash := textHash rt.arch.intBits text
  let rng := rt.NewSource (toInt64 hash)
  let embedding := (fillRandom rt embedding rng).1
  let sum := sumSquares rt embedding
  let norm := rt.recipEps sum
  scaleAll rt embedding norm

/-- generateOpenAIEmbedding uses OpenAI API for embeddings. -/
def generateOpenAIEmbedding (env : Backend σ F) (text : String) (w : σ) :
    Run σ F (List F) :=
  let req : EmbeddingRequest := { Input := [text], Model := AdaEmbeddingV2 }
  match env.CreateEmbeddings req w with
  | (.error err, w1) =>
    ⟨.error (.wrap "OpenAI API error" err), w1, [.createEmbeddings req]⟩
  | (.ok data, w1) =>
    match data with
    | [] => ⟨.error (.msg "no embedding returned"), w1, [.createEmbeddings req]⟩
    | first :: _ => ⟨.ok first, w1, [.createEmbeddings req]⟩

/-- generateEmbedding creates a vector embedding for text. -/
def generateEmbedding (env : Backend σ F) (rt : GoRuntime F R) (idx : Indexer)
    (text : String) (w : σ) : Run σ F (List F) :=
  if idx.useOpenAI then
    generateOpenAIEmbedding env text w
  else
    ⟨.ok (generatePseudoEmbedding rt text), w, []⟩

/-! ## Collection setup (main.go 119-155) -/

/-- The vector parameters `initCollection` asks for (main.go 141-144). -/
def collectionVectorParams : VectorParams :=
  { Size := embeddingSize, Distance := .Cosine }

/-- initCollection creates the Qdrant collection if it does not exist. -/
def initCollection (env : Backend σ F) (idx : Indexer) (w : σ) : Run σ F Unit :=
  match env.ListCollections w with
  | (.error err, w1) =>
    ⟨.error (.wrap "failed to list collections" err), w1, [.listCollections]⟩
  | (.ok collections, w1) =>
    let found := collections.any fun col => col.Name == idx.collectionName
    if !found then
      let req : CreateCollection :=
        { CollectionName := idx.collectionName, VectorsConfig := collectionVectorParams }
      let t : List (Event F) :=
        [.listCollections, .logf "Creating collection: %s" [.str idx.collectionName],
          .createCollection req]
      match env.CreateCollection req w1 with
      | (.error err, w2) => ⟨.error (.wrap "failed to create collection" err), w2, t⟩
      | (.ok _, w2) => ⟨.ok (), w2, t ++ [.logf "Collection created successfully" []]⟩
    else
      ⟨.ok (), w1, [.listCollections, .logf "Collection already exists" []]⟩

/-! ## Synchroniser (main.go 214-302) -/

/-- The limit of the store query (main.go 333-337). -/
def searchLimit (req : SearchRequest) : Nat :=
  let limit := toUint64 req.Limit
  if limit = 0 then 10 else limit

/-- The filter of the store query (main.go 339-377). -/
def searchFilter (req : SearchRequest) : Option Filter :=
  if req.Agency ≠ "" ∨ req.Category ≠ "" then
    let conditions : List Condition := []
    let conditions :=
      if req.Agency ≠ "" then
        conditions ++ [Condition.field { Key := "agency", Match := .keyword req.Agency }]
      else conditions
    let conditions :=
      if req.Category ≠ "" then
        conditions ++ [Condition.field { Key := "category", Match := .keyword req.Category }]
      else conditions
    some { Must := conditions }
  else
    none

/-- The result loop of `searchDatasets` (main.go 391-410): one dataset is
appended per returned point. -/
def convertResults (searchResult : List ScoredPoint) : List Dataset :=
  searchResult.foldl (fun results point => results ++ [payloadToDataset point.Payload]) []

/-- The `qdrant.QueryPoints` request of `searchDatasets` (main.go 380-386). -/
def searchQuery (idx : Indexer) (req : SearchRequest) (embedding : List F) : QueryPoints F :=
  { CollectionName := idx.collectionName
    Query := embedding
    Limit := searchLimit req
    Filter := searchFilter req
    WithPayload := true }

/-- searchDatasets performs semantic search. -/
def searchDatasets (env : Backend σ F) (rt : GoRuntime F R) (idx : Indexer)
    (req : SearchRequest) (w : σ) : Run σ F SearchResponse :=
  let e := generateEmbedding env rt idx req.Query w
  match e.result with
  | .error err =>
    ⟨.error (.wrap "failed to generate query embedding" err), e.world, e.trace⟩
  | .ok embedding =>
    let q := searchQuery idx req embedding
    match env.Query q e.world with
    | (.error err, w2) => ⟨.error (.wrap "search failed" err), w2, e.trace ++ [.query q]⟩
    | (.ok searchResult, w2) =>
      let results := convertResults searchResult
      ⟨.ok { Query := req.Query, Count := results.length, Results := results }, w2,
        e.trace ++ [.query q]⟩

/-! ## Reading a trace -/

/-- The store queries of a trace, oldest first. -/
def sentQueries : List (Event F) → List (QueryPoints F)
  | [] => []
  | .query q :: rest => q :: sentQueries rest
  | _ :: rest => sentQueries rest

/-- The collection creation requests of a trace. -/
def createRequests : List (Event F) → List CreateCollection
  | [] => []
  | .createCollection req :: rest => req :: createRequests rest
  | _ :: rest => createRequests rest

/-- The embedding API calls of a trace. -/
def embeddingCalls : List (Event F) → List EmbeddingRequest
  | [] => []
  | .createEmbeddings req :: rest => req :: embeddingCalls rest
  | _ :: rest => embeddingCalls rest

/-- The conjunctive clauses of an optional filter: its `Must` list, or none when
no filter is sent. -/
def mustClauses : Option Filter → List Condition
  | some f => f.Must
  | none => []

/-- The polynomial sum of the code points of a text over the unbounded
integers: the fold `hash = hash*31 + codepoint` from `0` without any wrapping,
that is `c₀·31^(n-1) + … + c_(n-1)`. -/
def polynomialSum (text : String) : Int :=
  text.data.foldl (fun hash c => hash * 31 + (c.toNat : Int)) 0

/-! ## A small concrete instance

Used to instantiate the theorems below on explicit inputs. -/

/-- A batch of three ledger records; the second has a non-numeric id. -/
def sampleBatch : List Dataset :=
  [ ⟨"42", "Air Quality 2023", "hourly readings", "QmA", 1024, "aa", "EPA",
      "environment", "gov1", 1700000000, 2⟩,
    ⟨"x7", "Budget", "", "QmB", 0, "bb", "DBM", "finance", "gov2", 1700000001, 0⟩,
    ⟨"43", "River Levels", "gauges", "QmC", 2048, "cc", "EPA", "water", "gov1",
      1700000002, 1⟩ ]

/-- A runtime on a 64-bit target with integers standing in for `float32` and a
counter standing in for the generator; the decoder answers with `sampleBatch`. -/
def sampleRuntime : GoRuntime Int Nat :=
  { arch := .bits64
    unicodeToLower := Char.toLower
    NewSource := fun seed => seed.toNat
    Float32 := fun r => ((r : Int), r + 1)
    zero := 0
    one := 1
    two := 2
    add := fun a b => a + b
    sub := fun a b => a - b
    mul := fun a b => a * b
    recipEps := fun x => x
    jsonDecode := fun body =>
      if body = "" then .error (.msg "EOF") else .ok ⟨sampleBatch, ⟨"", "3"⟩⟩ }

/-- Services that always answer: the ledger with status 200, the embedding API
with one short vector, the store with success and two points on a query. -/
def sampleBackend : Backend Unit Int :=
  { httpGet := fun _ w => (.ok ⟨200, "batch"⟩, w)
    CreateEmbeddings := fun _ w => (.ok [[1, 0, 0]], w)
    ListCollections := fun w => (.ok [], w)
    CreateCollection := fun _ w => (.ok (), w)
    Upsert := fun _ w => (.ok (), w)
    Query := fun _ w =>
      (.ok [⟨⟨43⟩, [("id", .stringValue "43"), ("fileSize", .integerValue 2048)]⟩,
        ⟨⟨42⟩, [("id", .stringValue "42"), ("title", .stringValue "Air Quality 2023")]⟩], w) }

/-- An indexer using the embedding API. -/
def sampleIndexer : Indexer :=
  { blockchainAPI := "http://localhost:1317"
    collectionName := "govchain_datasets"
    useOpenAI := true }

/-- An indexer in fallback mode (no API key). -/
def offlineIndexer : Indexer :=
  { blockchainAPI := "http://localhost:1317"
    collectionName := "govchain_datasets"
    useOpenAI := false }

/-! ## Payload extraction and the index/search round trip -/

theorem two_pow_64_cast : ((2 ^ 64 : Nat) : Int) = 2 ^ 64 := by norm_num

theorem toUint64_toInt64 (n : Nat) (h : n < 2 ^ 64) : toUint64 (toInt64 (n : Int)) = n := by
  unfold toUint64 toInt64
  rw [← two_pow_64_cast, Int.bmod_emod]
  have h1 : ((n : Int)) % ((2 ^ 64 : Nat) : Int) = (n : Int) := by
    apply Int.emod_eq_of_lt
    · exact Int.ofNat_nonneg n
    · exact_mod_cast h
  rw [h1]
  exact Int.toNat_ofNat n

theorem toInt64_eq_zero (n : Nat) (h : n < 2 ^ 64) (h0 : toInt64 (n : Int) = 0) : n = 0 := by
  have h1 := toUint64_toInt64 n h
  rw [h0] at h1
  simpa [toUint64] using h1.symm

theorem uint64_field_roundtrip (n : Nat) (h : n < 2 ^ 64) :
    (if toInt64 (n : Int) ≠ 0 then toUint64 (toInt64 (n : Int)) else 0) = n := by
  by_cases h0 : toInt64 (n : Int) = 0
  · rw [if_neg (not_not.mpr h0)]
    exact (toInt64_eq_zero n h h0).symm
  · rw [if_pos h0]
    exact toUint64_toInt64 n h

theorem string_field_roundtrip (s : String) :
    (if (Value.stringValue s).GetStringValue ≠ "" then (Value.stringValue s).GetStringValue
      else "") = s := by
  by_cases h : s = "" <;> simp [Value.GetStringValue, h]

theorem getUint64_of_lookup (payload : Payload) (key : String) (v : Int)
    (h : payload.lookup key = some (.integerValue v)) :
    getUint64FromPayload payload key = if v ≠ 0 then toUint64 v else 0 := by
  unfold getUint64FromPayload
  rw [h]
  rfl

theorem lookup_fileSize (d : Dataset) :
    List.lookup "fileSize" (datasetPayload d) = some (.integerValue (toInt64 d.FileSize)) :=
  rfl

theorem lookup_pinCount (d : Dataset) :
    List.lookup "pinCount" (datasetPayload d) = some (.integerValue (toInt64 d.PinCount)) :=
  rfl

theorem lookup_timestamp (d : Dataset) :
    List.lookup "timestamp" (datasetPayload d) = some (.integerValue d.Timestamp) :=
  rfl

/-- C10. Index/search round trip of the payload: for every dataset whose
numeric fields fit their Go types (including zero and empty values and
`FileSize`/`PinCount` of `2^63` or more), the dataset that `searchDatasets`
reconstructs from the payload map `indexDataset` builds is the dataset itself. -/
theorem payload_roundtrip (d : Dataset) (h : d.InRange) :
    payloadToDataset (datasetPayload d) = d := by
  obtain ⟨hf, hp, _, _⟩ := h
  have e1 : getUint64FromPayload (datasetPayload d) "fileSize" = d.FileSize := by
    rw [getUint64_of_lookup _ _ _ (lookup_fileSize d)]
    exact uint64_field_roundtrip d.FileSize hf
  have e2 : getUint64FromPayload (datasetPayload d) "pinCount" = d.PinCount := by
    rw [getUint64_of_lookup _ _ _ (lookup_pinCount d)]
    exact uint64_field_roundtrip d.PinCount hp
  have e3 : getInt64FromPayload (datasetPayload d) "timestamp" = d.Timestamp := by
    unfold getInt64FromPayload
    rw [lookup_timestamp]
    rfl
  simp only [payloadToDataset, e1, e2, e3]
  cases d
  simp only [Dataset.mk.injEq, and_true, true_and]
  refine ⟨?_, ?_, ?_, ?_, ?_, ?_, ?_, ?_⟩ <;> exact string_field_roundtrip _

/-- Witness for C10: a dataset with an empty description, a zero pin count, a
negative timestamp and a file size above `2^63`. -/
theorem payload_roundtrip_witness :
    (Dataset.mk "42" "Air Quality 2023" "" "Qm" (2 ^ 63 + 5) "ab" "EPA" "environment"
        "gov1" (-7) 0).InRange ∧
      payloadToDataset (datasetPayload
        (Dataset.mk "42" "Air Quality 2023" "" "Qm" (2 ^ 63 + 5) "ab" "EPA" "environment"
          "gov1" (-7) 0)) =
        Dataset.mk "42" "Air Quality 2023" "" "Qm" (2 ^ 63 + 5) "ab" "EPA" "environment"
          "gov1" (-7) 0 :=
  ⟨by decide, payload_roundtrip _ (by decide)⟩

/-- C9. Payload extraction defaults: `getStringFromPayload` returns a stored
non-empty string and `""` when the key is absent or the stored string is empty;
`getUint64FromPayload` returns `0` when the key is absent or the stored integer
is `0` and otherwise the stored integer converted to `uint64`; an absent numeric
field and a stored zero give the same value. -/
theorem payload_extraction_defaults (payload : Payload) (key : String) :
    (∀ s, payload.lookup key = some (.stringValue s) → s ≠ "" →
      getStringFromPayload payload key = s) ∧
    (payload.lookup key = none → getStringFromPayload payload key = "") ∧
    (payload.lookup key = some (.stringValue "") → getStringFromPayload payload key = "") ∧
    (payload.lookup key = none → getUint64FromPayload payload key = 0) ∧
    (payload.lookup key = some (.integerValue 0) → getUint64FromPayload payload key = 0) ∧
    (∀ v, payload.lookup key = some (.integerValue v) → v ≠ 0 →
      getUint64FromPayload payload key = toUint64 v) ∧
    (∀ other : Payload, payload.lookup key = none →
      other.lookup key = some (.integerValue 0) →
      getUint64FromPayload payload key = getUint64FromPayload other key) := by
  refine ⟨?_, ?_, ?_, ?_, ?_, ?_, ?_⟩
  · intro s h hs
    unfold getStringFromPayload
    rw [h]
    exact string_field_roundtrip s
  · intro h
    unfold getStringFromPayload
    rw [h]
  · intro h
    unfold getStringFromPayload
    rw [h]
    exact string_field_roundtrip ""
  · intro h
    unfold getUint64FromPayload
    rw [h]
  · intro h
    rw [getUint64_of_lookup _ _ _ h]
    rfl
  · intro v h hv
    rw [getUint64_of_lookup _ _ _ h, if_pos hv]
  · intro other h h0
    rw [getUint64_of_lookup _ _ _ h0]
    unfold getUint64FromPayload
    rw [h]
    rfl

/-- Witness for C9: a stored title is returned, and a stored `-1` comes back as
`2^64 - 1`. -/
theorem payload_extraction_defaults_witness :
    getStringFromPayload [("id", .stringValue "42"), ("title", .stringValue "Air")] "title"
        = "Air" ∧
      getUint64FromPayload [("fileSize", .integerValue (-1))] "fileSize" = toUint64 (-1) :=
  ⟨(payload_extraction_defaults _ "title").1 "Air" rfl (by decide),
    (payload_extraction_defaults _ "fileSize").2.2.2.2.2.1 (-1) rfl (by decide)⟩

/-! ## Query engine -/

theorem sentQueries_append (a b : List (Event F)) :
    sentQueries (a ++ b) = sentQueries a ++ sentQueries b := by
  induction a with
  | nil => rfl
  | cons ev rest ih => cases ev <;> simp [sentQueries, ih]

theorem embeddingCalls_append (a b : List (Event F)) :
    embeddingCalls (a ++ b) = embeddingCalls a ++ embeddingCalls b := by
  induction a with
  | nil => rfl
  | cons ev rest ih => cases ev <;> simp [embeddingCalls, ih]

theorem generateOpenAIEmbedding_trace (env : Backend σ F) (text : String) (w : σ) :
    (generateOpenAIEmbedding env text w).trace =
      [.createEmbeddings { Input := [text], Model := AdaEmbeddingV2 }] := by
  unfold generateOpenAIEmbedding
  dsimp only
  split
  · rfl
  · split <;> rfl

theorem generateEmbedding_trace (env : Backend σ F) (rt : GoRuntime F R) (idx : Indexer)
    (text : String) (w : σ) :
    (generateEmbedding env rt idx text w).trace =
      if idx.useOpenAI then [.createEmbeddings { Input := [text], Model := AdaEmbeddingV2 }]
      else [] := by
  unfold generateEmbedding
  by_cases h : idx.useOpenAI = true
  · simp only [h, if_true]
    exact generateOpenAIEmbedding_trace env text w
  · simp only [h, if_false]
    simp

theorem generateEmbedding_sentQueries (env : Backend σ F) (rt : GoRuntime F R)
    (idx : Indexer) (text : String) (w : σ) :
    sentQueries (generateEmbedding env rt idx text w).trace = [] := by
  rw [generateEmbedding_trace]
  by_cases h : idx.useOpenAI = true <;> simp [h, sentQueries]

theorem generateEmbedding_offline (env : Backend σ F) (rt : GoRuntime F R) (idx : Indexer)
    (text : String) (w : σ) (h : idx.useOpenAI = false) :
    generateEmbedding env rt idx text w = ⟨.ok (generatePseudoEmbedding rt text), w, []⟩ := by
  unfold generateEmbedding
  simp [h]

theorem convertResults_eq_map (searchResult : List ScoredPoint) :
    convertResults searchResult = searchResult.map fun point => payloadToDataset point.Payload := by
  have key : ∀ (l : List ScoredPoint) (acc : List Dataset),
      l.foldl (fun results point => results ++ [payloadToDataset point.Payload]) acc =
        acc ++ l.map fun point => payloadToDataset point.Payload := by
    intro l
    induction l with
    | nil => intro acc; simp
    | cons p rest ih => intro acc; simp [List.foldl, ih]
  simpa [convertResults] using key searchResult []

/-- With a successful embedding, `searchDatasets` issues its store query and
returns according to the store's answer. -/
theorem searchDatasets_after_embedding (env : Backend σ F) (rt : GoRuntime F R)
    (idx : Indexer) (req : SearchRequest) (w : σ) (embedding : List F)
    (he : (generateEmbedding env rt idx req.Query w).result = .ok embedding) :
    searchDatasets env rt idx req w =
      match env.Query (searchQuery idx req embedding)
          (generateEmbedding env rt idx req.Query w).world with
      | (.error err, w2) =>
        ⟨.error (.wrap "search failed" err), w2,
          (generateEmbedding env rt idx req.Query w).trace ++
            [.query (searchQuery idx req embedding)]⟩
      | (.ok searchResult, w2) =>
        ⟨.ok { Query := req.Query, Count := (convertResults searchResult).length,
               Results := convertResults searchResult }, w2,
          (generateEmbedding env rt idx req.Query w).trace ++
            [.query (searchQuery idx req embedding)]⟩ := by
  unfold searchDatasets
  simp only [he]

theorem searchDatasets_trace (env : Backend σ F) (rt : GoRuntime F R)
    (idx : Indexer) (req : SearchRequest) (w : σ) (embedding : List F)
    (he : (generateEmbedding env rt idx req.Query w).result = .ok embedding) :
    (searchDatasets env rt idx req w).trace =
      (generateEmbedding env rt idx req.Query w).trace ++
        [.query (searchQuery idx req embedding)] := by
  rw [searchDatasets_after_embedding env rt idx req w embedding he]
  split <;> rfl

theorem searchDatasets_sentQueries (env : Backend σ F) (rt : GoRuntime F R)
    (idx : Indexer) (req : SearchRequest) (w : σ) (embedding : List F)
    (he : (generateEmbedding env rt idx req.Query w).result = .ok embedding) :
    sentQueries (searchDatasets env rt idx req w).trace = [searchQuery idx req embedding] := by
  rw [searchDatasets_trace env rt idx req w embedding he, sentQueries_append,
    generateEmbedding_sentQueries]
  rfl

theorem searchDatasets_embedding_error (env : Backend σ F) (rt : GoRuntime F R)
    (idx : Indexer) (req : SearchRequest) (w : σ) (err : Err)
    (he : (generateEmbedding env rt idx req.Query w).result = .error err) :
    searchDatasets env rt idx req w =
      ⟨.error (.wrap "failed to generate query embedding" err),
        (generateEmbedding env rt idx req.Query w).world,
        (generateEmbedding env rt idx req.Query w).trace⟩ := by
  unfold searchDatasets
  simp only [he]

theorem searchFilter_clauses (req : SearchRequest) :
    mustClauses (searchFilter req) =
      (if req.Agency ≠ "" then
          [Condition.field { Key := "agency", Match := .keyword req.Agency }] else []) ++
        (if req.Category ≠ "" then
          [Condition.field { Key := "category", Match := .keyword req.Category }] else []) := by
  by_cases hA : req.Agency = "" <;> by_cases hC : req.Category = "" <;>
    simp [searchFilter, mustClauses, hA, hC]

theorem searchFilter_other_lists (req : SearchRequest) (f : Filter)
    (h : searchFilter req = some f) : f.Should = [] ∧ f.MustNot = [] := by
  unfold searchFilter at h
  split at h
  · cases h
    exact ⟨rfl, rfl⟩
  · cases h

theorem searchFilter_eq_none (req : SearchRequest) :
    searchFilter req = none ↔ req.Agency = "" ∧ req.Category = "" := by
  by_cases hA : req.Agency = "" <;> by_cases hC : req.Category = "" <;>
    simp [searchFilter, hA, hC]

theorem searchFilter_explicit (req : SearchRequest) :
    searchFilter req =
      if req.Agency = "" ∧ req.Category = "" then none
      else some
        { Should := []
          Must :=
            (if req.Agency ≠ "" then
              [Condition.field { Key := "agency", Match := .keyword req.Agency }] else []) ++
            (if req.Category ≠ "" then
              [Condition.field { Key := "category", Match := .keyword req.Category }] else [])
          MustNot := [] } := by
  by_cases hA : req.Agency = "" <;> by_cases hC : req.Category = "" <;>
    simp [searchFilter, hA, hC]

/-- C1. When the query embedding succeeds, `searchDatasets` sends exactly one
store query, and its filter has a field condition with key `agency` and keyword
match `req.Agency` iff `req.Agency` is non-empty, a field condition with key
`category` and keyword match `req.Category` iff `req.Category` is non-empty;
every clause of `Must` is one of these two, any keyword clause on key `agency`
(`category`) carries `req.Agency` (`req.Category`), `Must` is exactly these
clauses (agency first), `Should` and `MustNot` stay empty, and no filter is sent
iff both fields are empty. -/
theorem search_filter_composition (env : Backend σ F) (rt : GoRuntime F R) (idx : Indexer)
    (req : SearchRequest) (w : σ) (embedding : List F)
    (he : (generateEmbedding env rt idx req.Query w).result = .ok embedding) :
    ∃ q, sentQueries (searchDatasets env rt idx req w).trace = [q] ∧
      (Condition.field { Key := "agency", Match := .keyword req.Agency } ∈
        mustClauses q.Filter ↔ req.Agency ≠ "") ∧
      (Condition.field { Key := "category", Match := .keyword req.Category } ∈
        mustClauses q.Filter ↔ req.Category ≠ "") ∧
      (∀ c ∈ mustClauses q.Filter,
        c = Condition.field { Key := "agency", Match := .keyword req.Agency } ∨
          c = Condition.field { Key := "category", Match := .keyword req.Category }) ∧
      (∀ key m, Condition.field { Key := key, Match := m } ∈ mustClauses q.Filter →
        (key = "agency" ∧ m = .keyword req.Agency ∧ req.Agency ≠ "") ∨
          (key = "category" ∧ m = .keyword req.Category ∧ req.Category ≠ "")) ∧
      mustClauses q.Filter =
        (if req.Agency ≠ "" then
            [Condition.field { Key := "agency", Match := .keyword req.Agency }] else []) ++
          (if req.Category ≠ "" then
            [Condition.field { Key := "category", Match := .keyword req.Category }]
           else []) ∧
      (∀ f, q.Filter = some f → f.Should = [] ∧ f.MustNot = []) ∧
      (q.Filter = none ↔ req.Agency = "" ∧ req.Category = "") ∧
      q.Filter =
        (if req.Agency = "" ∧ req.Category = "" then none
         else some
          { Should := []
            Must :=
              (if req.Agency ≠ "" then
                [Condition.field { Key := "agency", Match := .keyword req.Agency }]
               else []) ++
              (if req.Category ≠ "" then
                [Condition.field { Key := "category", Match := .keyword req.Category }]
               else [])
            MustNot := [] }) := by
  refine ⟨searchQuery idx req embedding,
    searchDatasets_sentQueries env rt idx req w embedding he, ?_, ?_, ?_, ?_,
    searchFilter_clauses req, searchFilter_other_lists req, searchFilter_eq_none req,
    searchFilter_explicit req⟩
  · show _ ∈ mustClauses (searchFilter req) ↔ _
    rw [searchFilter_clauses]
    by_cases hA : req.Agency = "" <;> by_cases hC : req.Category = "" <;> simp [hA, hC]
  · show _ ∈ mustClauses (searchFilter req) ↔ _
    rw [searchFilter_clauses]
    by_cases hA : req.Agency = "" <;> by_cases hC : req.Category = "" <;> simp [hA, hC]
  · show ∀ c ∈ mustClauses (searchFilter req), _
    rw [searchFilter_clauses]
    intro c hc
    by_cases hA : req.Agency = "" <;> by_cases hC : req.Category = "" <;>
      simp [hA, hC] at hc <;> simp [hc]
  · show ∀ key m, _ ∈ mustClauses (searchFilter req) → _
    rw [searchFilter_clauses]
    intro key m hc
    by_cases hA : req.Agency = "" <;> by_cases hC : req.Category = "" <;>
      simp [hA, hC] at hc <;> simp [hc, hA, hC]

/-- Witness for C1: a search with agency `EPA` and category `water` sends the
filter whose `Must` list is the keyword match `agency = EPA` followed by the
keyword match `category = water`. -/
theorem search_filter_composition_witness :
    (generateEmbedding sampleBackend sampleRuntime sampleIndexer "rivers" ()).result
        = .ok [1, 0, 0] ∧
      ∃ q, sentQueries (searchDatasets sampleBackend sampleRuntime sampleIndexer
          ⟨"rivers", 5, "EPA", "water"⟩ ()).trace = [q] ∧
        q.Filter = some
          { Should := []
            Must := [Condition.field { Key := "agency", Match := .keyword "EPA" },
              Condition.field { Key := "category", Match := .keyword "water" }]
            MustNot := [] } := by
  obtain ⟨q, hq, _, _, _, _, _, _, _, hf⟩ :=
    search_filter_composition sampleBackend sampleRuntime sampleIndexer
      ⟨"rivers", 5, "EPA", "water"⟩ () [1, 0, 0] rfl
  exact ⟨rfl, q, hq, by rw [hf]; decide⟩

theorem searchLimit_of_pos (req : SearchRequest) (h : 0 < req.Limit) (hmax : req.Limit < 2 ^ 63) :
    (searchLimit req : Int) = req.Limit := by
  have h1 : req.Limit % 2 ^ 64 = req.Limit := Int.emod_eq_of_lt (le_of_lt h) (by omega)
  have h2 : toUint64 req.Limit ≠ 0 := by
    unfold toUint64
    rw [h1]
    omega
  unfold searchLimit
  simp only [h2, if_false]
  unfold toUint64
  rw [h1]
  omega

theorem searchLimit_zero (req : SearchRequest) (h : req.Limit = 0) : searchLimit req = 10 := by
  unfold searchLimit toUint64
  rw [h]
  rfl

theorem searchQuery_limit_zero_eq_ten (idx : Indexer) (query agency category : String)
    (embedding : List F) :
    searchQuery idx ⟨query, 0, agency, category⟩ embedding =
      searchQuery idx ⟨query, 10, agency, category⟩ embedding := rfl

/-- C2 (failing input). For the request `q=rivers, limit=-1` in fallback mode the
limit in the store query is `18446744073709551615`, not `10`: the conversion
`uint64(req.Limit)` wraps a negative limit and only the value `0` is replaced by
the default. -/
theorem search_limit_negative_wraps (env : Backend σ F) (rt : GoRuntime F R) (w : σ) :
    (sentQueries (searchDatasets env rt offlineIndexer ⟨"rivers", -1, "", ""⟩ w).trace).map
      (fun q => q.Limit) = [18446744073709551615] := by
  rw [searchDatasets_sentQueries env rt offlineIndexer _ w (generatePseudoEmbedding rt "rivers")
    (by rw [generateEmbedding_offline env rt offlineIndexer _ w rfl])]
  show [searchLimit ⟨"rivers", -1, "", ""⟩] = _
  decide

/-- C8. When the embedding and the store query succeed, `searchDatasets` returns
a response whose `Query` is `req.Query`, whose `Results` are the reconstructions
of the returned points' payloads, one per point and in the store's order, and
whose `Count` is the length of `Results`. -/
theorem search_response_shape (env : Backend σ F) (rt : GoRuntime F R) (idx : Indexer)
    (req : SearchRequest) (w w2 : σ) (embedding : List F) (points : List ScoredPoint)
    (he : (generateEmbedding env rt idx req.Query w).result = .ok embedding)
    (hq : env.Query (searchQuery idx req embedding)
      (generateEmbedding env rt idx req.Query w).world = (.ok points, w2)) :
    ∃ resp, (searchDatasets env rt idx req w).result = .ok resp ∧
      resp.Query = req.Query ∧
      resp.Results = points.map (fun point => payloadToDataset point.Payload) ∧
      resp.Results.length = points.length ∧
      (∀ i (hi : i < points.length),
        resp.Results.get? i = some (payloadToDataset (points.get ⟨i, hi⟩).Payload)) ∧
      resp.Count = (resp.Results.length : Int) := by
  rw [searchDatasets_after_embedding env rt idx req w embedding he, hq]
  refine ⟨_, rfl, rfl, convertResults_eq_map points, ?_, ?_, rfl⟩
  · simp [convertResults_eq_map]
  · intro i hi
    simp [convertResults_eq_map, List.getElem?_eq_getElem hi]

/-- Witness for C8: the store answers with two points. -/
theorem search_response_shape_witness :
    ∃ resp, (searchDatasets sampleBackend sampleRuntime sampleIndexer
        ⟨"rivers", 0, "", ""⟩ ()).result = .ok resp ∧
      resp.Query = "rivers" ∧
      resp.Results = [payloadToDataset [("id", .stringValue "43"),
          ("fileSize", .integerValue 2048)],
        payloadToDataset [("id", .stringValue "42"),
          ("title", .stringValue "Air Quality 2023")]] ∧
      resp.Count = 2 := by
  obtain ⟨resp, h1, h2, h3, _, _, h6⟩ :=
    search_response_shape sampleBackend sampleRuntime sampleIndexer
      ⟨"rivers", 0, "", ""⟩ () () [1, 0, 0] _ rfl rfl
  refine ⟨resp, h1, h2, h3, ?_⟩
  rw [h6, h3]
  rfl

theorem pseudoSeed_empty (rt : GoRuntime F R) : pseudoSeed rt "" = 0 := by
  unfold pseudoSeed ToLower textHash toInt64
  simp [Int.bmod]

/-- C3 (counterexample). With the embedding API configured, a request whose
`Query` is empty is not rejected by `searchDatasets`: one embedding call and one
store query are issued and a `SearchResponse` is returned. -/
theorem search_empty_query_not_rejected :
    (∃ resp, (searchDatasets sampleBackend sampleRuntime sampleIndexer
        ⟨"", 0, "", ""⟩ ()).result = .ok resp ∧ resp.Query = "") ∧
      embeddingCalls (searchDatasets sampleBackend sampleRuntime sampleIndexer
        ⟨"", 0, "", ""⟩ ()).trace = [⟨[""], AdaEmbeddingV2⟩] ∧
      (sentQueries (searchDatasets sampleBackend sampleRuntime sampleIndexer
        ⟨"", 0, "", ""⟩ ()).trace).length = 1 :=
  ⟨⟨_, rfl, rfl⟩, rfl, rfl⟩

/-- C3 (amended). `searchDatasets` does not validate `Query`. For a request
whose `Query` is empty it asks for an embedding of the empty text (one API call
with input `""` when the API is configured; in fallback mode no call, seed `0`);
if the embedding fails it returns that error wrapped and sends no store query;
otherwise it sends exactly one store query carrying the embedding and returns a
response with `Query = ""` when the store answers, or the store's error wrapped
as `search failed`. -/
theorem search_empty_query_behaviour (env : Backend σ F) (rt : GoRuntime F R)
    (idx : Indexer) (req : SearchRequest) (w : σ) (hq : req.Query = "") :
    embeddingCalls (searchDatasets env rt idx req w).trace =
        (if idx.useOpenAI then [⟨[""], AdaEmbeddingV2⟩] else []) ∧
      (idx.useOpenAI = false →
        pseudoSeed rt req.Query = 0 ∧
          sentQueries (searchDatasets env rt idx req w).trace =
            [searchQuery idx req (generatePseudoEmbedding rt "")]) ∧
      (∀ err, (generateEmbedding env rt idx "" w).result = .error err →
        (searchDatasets env rt idx req w).result =
            .error (.wrap "failed to generate query embedding" err) ∧
          sentQueries (searchDatasets env rt idx req w).trace = []) ∧
      (∀ embedding, (generateEmbedding env rt idx "" w).result = .ok embedding →
        sentQueries (searchDatasets env rt idx req w).trace =
            [searchQuery idx req embedding] ∧
          (∀ points w2, env.Query (searchQuery idx req embedding)
              (generateEmbedding env rt idx "" w).world = (.ok points, w2) →
            (searchDatasets env rt idx req w).result =
              .ok { Query := "", Count := (points.length : Int),
                    Results := points.map fun point => payloadToDataset point.Payload }) ∧
          (∀ err w2, env.Query (searchQuery idx req embedding)
              (generateEmbedding env rt idx "" w).world = (.error err, w2) →
            (searchDatasets env rt idx req w).result = .error (.wrap "search failed" err))) := by
  have calls : embeddingCalls (searchDatasets env rt idx req w).trace =
      embeddingCalls (generateEmbedding env rt idx req.Query w).trace := by
    cases he : (generateEmbedding env rt idx req.Query w).result with
    | error err => rw [searchDatasets_embedding_error env rt idx req w err he]
    | ok embedding =>
      rw [searchDatasets_trace env rt idx req w embedding he, embeddingCalls_append]
      simp [embeddingCalls]
  refine ⟨?_, ?_, ?_, ?_⟩
  · rw [calls, generateEmbedding_trace, hq]
    by_cases h : idx.useOpenAI = true <;> simp [h, embeddingCalls]
  · intro h
    refine ⟨by rw [hq]; exact pseudoSeed_empty rt, ?_⟩
    rw [searchDatasets_sentQueries env rt idx req w (generatePseudoEmbedding rt "")
      (by rw [hq, generateEmbedding_offline env rt idx _ w h])]
  · intro err he
    rw [← hq] at he
    rw [searchDatasets_embedding_error env rt idx req w err he]
    exact ⟨rfl, generateEmbedding_sentQueries env rt idx req.Query w⟩
  · intro embedding he
    rw [← hq] at he
    refine ⟨searchDatasets_sentQueries env rt idx req w embedding he, ?_, ?_⟩
    · intro points w2 hstore
      rw [← hq] at hstore
      rw [searchDatasets_after_embedding env rt idx req w embedding he, hstore]
      simp [convertResults_eq_map, hq]
    · intro err w2 hstore
      rw [← hq] at hstore
      rw [searchDatasets_after_embedding env rt idx req w embedding he, hstore]

/-- Witness for C3 (amended): the empty query in fallback mode. -/
theorem search_empty_query_behaviour_witness :
    embeddingCalls (searchDatasets sampleBackend sampleRuntime offlineIndexer
        ⟨"", 0, "", ""⟩ ()).trace = [] ∧
      sentQueries (searchDatasets sampleBackend sampleRuntime offlineIndexer
        ⟨"", 0, "", ""⟩ ()).trace =
          [searchQuery offlineIndexer ⟨"", 0, "", ""⟩
            (generatePseudoEmbedding sampleRuntime "")] :=
  ⟨(search_empty_query_behaviour sampleBackend sampleRuntime offlineIndexer
      ⟨"", 0, "", ""⟩ () rfl).1,
    ((search_empty_query_behaviour sampleBackend sampleRuntime offlineIndexer
      ⟨"", 0, "", ""⟩ () rfl).2.1 rfl).2⟩

/-! ## Embedding provider -/

theorem fillRandom_length (rt : GoRuntime F R) (embedding : List F) (rng : R) :
    (fillRandom rt embedding rng).1.length = embedding.length := by
  have key : ∀ (idxs : List Nat) (st : List F × R),
      (idxs.foldl
        (fun st i =>
          let draw := rt.Float32 st.2
          (st.1.set i (rt.sub (rt.mul draw.1 rt.two) rt.one), draw.2)) st).1.length
        = st.1.length := by
    intro idxs
    induction idxs with
    | nil => intro st; rfl
    | cons i rest ih => intro st; simp only [List.foldl]; rw [ih]; simp
  exact key _ _

theorem scaleAll_length (rt : GoRuntime F R) (embedding : List F) (norm : F) :
    (scaleAll rt embedding norm).length = embedding.length := by
  have key : ∀ (idxs : List Nat) (emb : List F),
      (idxs.foldl
        (fun emb i =>
          match emb.get? i with
          | some v => emb.set i (rt.mul v norm)
          | none => emb) emb).length = emb.length := by
    intro idxs
    induction idxs with
    | nil => intro emb; rfl
    | cons i rest ih =>
      intro emb
      simp only [List.foldl]
      rw [ih]
      split <;> simp
  exact key _ _

theorem generatePseudoEmbedding_length (rt : GoRuntime F R) (text : String) :
    (generatePseudoEmbedding rt text).length = embeddingSize := by
  unfold generatePseudoEmbedding
  simp only [scaleAll_length, fillRandom_length, List.length_replicate]

theorem initCollection_createRequests (env : Backend σ F) (idx : Indexer) (w : σ) :
    createRequests (initCollection env idx w).trace = [] ∨
      createRequests (initCollection env idx w).trace =
        [{ CollectionName := idx.collectionName, VectorsConfig := collectionVectorParams }] := by
  unfold initCollection
  split
  · left; rfl
  · dsimp only
    split
    · split
      · right; rfl
      · right; rfl
    · left; rfl

/-- C5. For every input string (the empty string included) the pseudo-embedding
has exactly 1536 components, which is the vector size `initCollection` asks for
whenever it creates the collection; and it does create it, with that size, when
the listing succeeds and does not contain the collection name. -/
theorem pseudo_embedding_dimension (rt : GoRuntime F R) (text : String)
    (env : Backend σ F) (idx : Indexer) (w : σ) :
    (generatePseudoEmbedding rt text).length = 1536 ∧
      collectionVectorParams.Size = (generatePseudoEmbedding rt text).length ∧
      (∀ req ∈ createRequests (initCollection env idx w).trace,
        req.VectorsConfig.Size = (generatePseudoEmbedding rt text).length) ∧
      (∀ collections w1, env.ListCollections w = (.ok collections, w1) →
        (∀ col ∈ collections, col.Name ≠ idx.collectionName) →
        createRequests (initCollection env idx w).trace =
          [{ CollectionName := idx.collectionName,
             VectorsConfig := { Size := 1536, Distance := .Cosine } }]) := by
  have hlen := generatePseudoEmbedding_length rt text
  refine ⟨hlen, hlen.symm, ?_, ?_⟩
  · intro req hreq
    rcases initCollection_createRequests env idx w with h | h
    · rw [h] at hreq
      cases hreq
    · rw [h] at hreq
      rw [List.mem_singleton.mp hreq, hlen]
      rfl
  · intro collections w1 hlist habsent
    have hany : (collections.any fun col => col.Name == idx.collectionName) = false := by
      rw [List.any_eq_false]
      intro col hcol
      simpa using habsent col hcol
    unfold initCollection
    rw [hlist]
    simp only [hany, Bool.not_false, if_true]
    split <;> rfl

/-- Witness for C5: the empty text, and a store that lists no collection. -/
theorem pseudo_embedding_dimension_witness :
    (generatePseudoEmbedding sampleRuntime "").length = 1536 ∧
      createRequests (initCollection sampleBackend offlineIndexer ()).trace =
        [{ CollectionName := "govchain_datasets",
           VectorsConfig := { Size := 1536, Distance := .Cosine } }] :=
  ⟨(pseudo_embedding_dimension sampleRuntime "" sampleBackend offlineIndexer ()).1,
    (pseudo_embedding_dimension sampleRuntime "" sampleBackend offlineIndexer ()).2.2.2
      [] () rfl (fun _ h => nomatch h)⟩

theorem generatePseudoEmbedding_of_seed (rt : GoRuntime F R) (s t : String)
    (h : pseudoSeed rt s = pseudoSeed rt t) :
    generatePseudoEmbedding rt s = generatePseudoEmbedding rt t := by
  unfold pseudoSeed at h
  unfold generatePseudoEmbedding
  simp only [h]

/-- C6. The fallback embedding depends only on the lower-cased text: two texts
with the same lower-casing get the same seed and the same vector, component for
component; more generally two texts with the same seed get the same vector. -/
theorem pseudo_embedding_lowercase_only (rt : GoRuntime F R) (s t : String)
    (h : ToLower rt s = ToLower rt t) :
    pseudoSeed rt s = pseudoSeed rt t ∧
      generatePseudoEmbedding rt s = generatePseudoEmbedding rt t ∧
      (∀ i, (generatePseudoEmbedding rt s).get? i = (generatePseudoEmbedding rt t).get? i) ∧
      (∀ u v : String, pseudoSeed rt u = pseudoSeed rt v →
        generatePseudoEmbedding rt u = generatePseudoEmbedding rt v) := by
  have hseed : pseudoSeed rt s = pseudoSeed rt t := by
    unfold pseudoSeed
    rw [h]
  have hvec := generatePseudoEmbedding_of_seed rt s t hseed
  exact ⟨hseed, hvec, fun i => by rw [hvec], generatePseudoEmbedding_of_seed rt⟩

/-- Witness for C6: two texts that differ only in letter case. -/
theorem pseudo_embedding_lowercase_only_witness :
    ToLower sampleRuntime "EPA Water" = ToLower sampleRuntime "epa water" ∧
      generatePseudoEmbedding sampleRuntime "EPA Water" =
        generatePseudoEmbedding sampleRuntime "epa water" :=
  ⟨by decide, (pseudo_embedding_lowercase_only sampleRuntime "EPA Water" "epa water"
    (by decide)).2.1⟩

theorem hashStep_congr (bits : Nat) (b : Int) (c : Char) :
    hashStep bits (Int.bmod b (2 ^ bits)) c = Int.bmod (b * 31 + (c.toNat : Int)) (2 ^ bits) := by
  unfold hashStep
  rw [Int.add_bmod (Int.bmod b (2 ^ bits) * 31), Int.bmod_mul_bmod, ← Int.add_bmod]

theorem textHash_eq_bmod (bits : Nat) (text : String) :
    textHash bits text = Int.bmod (polynomialSum text) (2 ^ bits) := by
  have key : ∀ (cs : List Char) (b : Int),
      cs.foldl (hashStep bits) (Int.bmod b (2 ^ bits)) =
        Int.bmod (cs.foldl (fun hash c => hash * 31 + (c.toNat : Int)) b) (2 ^ bits) := by
    intro cs
    induction cs with
    | nil => intro b; rfl
    | cons c rest ih =>
      intro b
      simp only [List.foldl]
      rw [hashStep_congr, ih]
  have h := key text.data 0
  rw [Int.bmod_zero] at h
  exact h

theorem toInt64_of_range (y : Int) (hlo : -(2 ^ 63) ≤ y) (hhi : y < 2 ^ 63) : toInt64 y = y := by
  unfold toInt64
  rw [Int.bmod_def]
  have e : ((2 ^ 64 : Nat) : Int) = 18446744073709551616 := by norm_num
  have e2 : (((2 ^ 64 : Nat) : Int) + 1) / 2 = 9223372036854775808 := by norm_num
  rw [e2, e]
  split <;> omega

theorem toInt64_bmod_intBits (arch : Arch) (x : Int) :
    toInt64 (Int.bmod x (2 ^ arch.intBits)) = Int.bmod x (2 ^ arch.intBits) := by
  cases arch with
  | bits64 => exact Int.bmod_bmod
  | bits32 =>
    apply toInt64_of_range
    · have h := @Int.le_bmod x (2 ^ 32) (by norm_num)
      have e : ((2 ^ 32 : Nat) : Int) / 2 = 2147483648 := by norm_num
      simp only [Arch.intBits]
      omega
    · have h := @Int.bmod_lt x (2 ^ 32) (by norm_num)
      have e : (((2 ^ 32 : Nat) : Int) + 1) / 2 = 2147483648 := by norm_num
      simp only [Arch.intBits]
      omega

/-- C7 (counterexample). On a 64-bit target the seed of the text `aaaaaaa` is
the full polynomial sum `88957452289`; its reduction modulo `2^32` as a signed
32-bit integer is `-1236860927`. -/
theorem seed_not_reduced_to_32_bits :
    pseudoSeed sampleRuntime "aaaaaaa" = 88957452289 ∧
      Int.bmod (polynomialSum (ToLower sampleRuntime "aaaaaaa")) (2 ^ 32) = -1236860927 ∧
      pseudoSeed sampleRuntime "aaaaaaa" ≠
        Int.bmod (polynomialSum (ToLower sampleRuntime "aaaaaaa")) (2 ^ 32) := by
  decide

/-- C7 (amended). For every input string the seed given to the generator is
the fold `hash = hash*31 + codepoint` over the lower-cased text, starting from
`0`, with overflow wrapping at the width of the Go `int` type of the target: the
polynomial sum reduced modulo `2^64` (as a signed integer) on 64-bit targets,
modulo `2^32` on 32-bit targets. -/
theorem seed_is_wrapped_polynomial_sum (rt : GoRuntime F R) (text : String) :
    pseudoSeed rt text =
      Int.bmod (polynomialSum (ToLower rt text)) (2 ^ rt.arch.intBits) := by
  unfold pseudoSeed
  rw [textHash_eq_bmod, toInt64_bmod_intBits]

/-! ## Synchroniser -/

end GovChain
